import Mathlib

/-!
Shallow embedding of the real-time messaging layer of the repository
`backend_for_admin_sait` (files `asgi.py`, `main.py`, `auth.py`, `models.py`).

The socket.io handlers of `asgi.py` are modelled as pure functions over an
explicit server state (session registry, room-membership index, message store).
Room names are plain strings, exactly the f-strings of the source
(`f"user_{uid}"`, `f"order_{oid}"`).  JSON scalar payload fields are modelled
as `Option String` (`none` = key absent / value `None`); Python truthiness of
such a field is `none` or `some ""` being falsy.

A central point of fidelity: `asgi.py` uses `socketio.AsyncServer`, whose
`save_session` and `get_session` are coroutines, but the handlers call them
WITHOUT `await`.  Hence: in the sync `connect` handler the
`sio.save_session(...)` coroutine is created and dropped, so the session
registry is never written; in every other handler
`sess = sio.get_session(sid)` binds a coroutine object, which is truthy
(`if not sess: return` is a dead guard), and any later `sess['user_id']`
raises `TypeError: 'coroutine' object is not subscriptable`, aborting the
handler before the database or `sio.emit` is reached.  The embedding models
each handler's actual observable behaviour: the state it leaves behind, the
events it emits (never any), and — for the send handlers, whose silent-drop
guards run before the crash — `Except.error PyError.typeError` for the raise.
-/

namespace Backend

/-- Python `str.strip()` whitespace predicate (space, \t, \n, \r, \x0b, \x0c). -/
def isPySpace (c : Char) : Bool :=
  c = ' ' || c = '\t' || c = '\n' || c = '\r' || c.toNat = 11 || c.toNat = 12

/-- Python `str.strip()`: drop leading and trailing whitespace. -/
def pyStrip (s : String) : String :=
  ⟨((s.data.dropWhile isPySpace).reverse.dropWhile isPySpace).reverse⟩

/-- Python truthiness of an optional string field: `None` and `""` are falsy. -/
def pyTruthy : Option String → Bool
  | none => false
  | some s => s ≠ ""

/-- The JWT claims the backend puts into a token
(`create_access_token({"user_id": ..., "username": ...})` plus `exp`). -/
structure TokenPayload where
  user_id : Nat
  username : String
  exp : Nat
deriving Repr, DecidableEq

/-- A credential token: claims plus a signature string.  The HMAC of the JWT
library is modelled abstractly: a token verifies iff its signature equals
`signToken secret payload`. -/
structure Token where
  payload : TokenPayload
  sig : String
deriving Repr, DecidableEq

/-- Model of signing a payload with the shared secret. -/
def signToken (secret : String) (p : TokenPayload) : String :=
  secret ++ "." ++ toString p.user_id ++ "." ++ p.username ++ "." ++ toString p.exp

/-- Model of `jwt.decode(token, secret, algorithms=[...])`: succeeds iff the
signature verifies under `secret` and the token is not expired at `now`;
otherwise it raises, modelled by `none`. -/
def jwtDecode (secret : String) (now : Nat) (t : Token) : Option TokenPayload :=
  if t.sig = signToken secret t.payload ∧ now ≤ t.payload.exp then some t.payload else none

/-- Per-connection session saved by `connect`
(`{'user_id': ..., 'username': ...}`). -/
structure SessionData where
  user_id : Nat
  username : String
deriving Repr, DecidableEq

/-- A stored `Message` row (the columns the socket layer writes/reads). -/
structure Message where
  id : Nat
  user_id : Nat
  username : String
  direction : String
  text : String
  order_id : Option String
  created_at : Nat
deriving Repr, DecidableEq

/-- The serialized message payload of `serialize_message` in `main.py`, plus
the optional `client_message_id` key the socket handlers may add
(`none` = key absent from the dict). -/
structure MsgPayload where
  id : Nat
  user_id : Nat
  direction : String
  text : String
  order_id : Option String
  created_at : Nat
  client_message_id : Option String
deriving Repr, DecidableEq

/-- `serialize_message(m)` from `main.py`: drops the username, keeps id,
user_id, direction, text, order_id, created_at; no `client_message_id` key. -/
def serialize_message (m : Message) : MsgPayload :=
  { id := m.id, user_id := m.user_id, direction := m.direction, text := m.text,
    order_id := m.order_id, created_at := m.created_at, client_message_id := none }

/-- An outbound socket event produced by `sio.emit(event, payload, room=...)`. -/
structure Emit where
  event : String
  payload : MsgPayload
  room : String
deriving Repr, DecidableEq

/-- The payload dict of an inbound socket event, as read by the handlers via
`data.get('order_id')`, `data.get('text','')`, `data.get('client_message_id')`. -/
structure EventData where
  order_id : Option String
  text : Option String
  client_message_id : Option String
deriving Repr, DecidableEq

/-- The whole server state: the session registry (`sio.save_session` /
`sio.get_session`), the room-membership index of the socket.io room manager,
the durable message store, and the next autoincrement message id. -/
structure ServerState where
  sessions : List (Nat × SessionData)
  rooms : List (String × List Nat)
  store : List Message
  nextId : Nat
deriving Repr, DecidableEq

/-- `sio.get_session(sid)`: the saved session, if any (an empty/unsaved
session is falsy in the handlers' `if not sess: return`). -/
def getSession (st : ServerState) (sid : Nat) : Option SessionData :=
  (st.sessions.find? (fun p => p.1 = sid)).map Prod.snd

/-- The room manager's `enter_room`: add `sid` to the room's member dict
(no-op when already present; a fresh room entry is created when absent). -/
def enter_room (rooms : List (String × List Nat)) (sid : Nat) (r : String) :
    List (String × List Nat) :=
  match rooms with
  | [] => [(r, [sid])]
  | (r', ms) :: rest =>
    if r' = r then (r', if sid ∈ ms then ms else ms ++ [sid]) :: rest
    else (r', ms) :: enter_room rest sid r

/-- The room manager's `leave_room`: remove `sid` from the room's member dict
(`KeyError` on an absent member/room is swallowed, so that case is a no-op);
a room whose last member leaves is deleted. -/
def leave_room (rooms : List (String × List Nat)) (sid : Nat) (r : String) :
    List (String × List Nat) :=
  match rooms with
  | [] => []
  | (r', ms) :: rest =>
    if r' = r then
      if sid ∈ ms then
        if ms.filter (fun c => c ≠ sid) = [] then rest
        else (r', ms.filter (fun c => c ≠ sid)) :: rest
      else (r', ms) :: rest
    else (r', ms) :: leave_room rest sid r

/-- The members currently subscribed to a room (empty when the room is absent). -/
def membersOf (rooms : List (String × List Nat)) (r : String) : List Nat :=
  match rooms with
  | [] => []
  | (r', ms) :: rest => if r' = r then ms else membersOf rest r

/-- The `connect` handler of `asgi.py`.  `auth` is `none` when the client's
auth object is not a dict, `some none` when the dict has no (truthy) `token`
key, `some (some t)` when a token is supplied.  Returns whether the connection
is admitted (`False` from the handler refuses it) together with the new
state.  On any failure the state is untouched and no event of any kind is
emitted.  On success the handler calls `sio.save_session(sid, {...})` — but
`connect` is a sync `def` and `save_session` is a coroutine of the
`AsyncServer`, so the un-awaited coroutine is created and dropped: the
session registry is NEVER written and the state is returned unchanged. -/
def connect (secret : String) (now : Nat) (_sid : Nat)
    (auth : Option (Option Token)) (st : ServerState) : Bool × ServerState :=
  match auth with
  | none => (false, st)
  | some none => (false, st)
  | some (some t) =>
    match jwtDecode secret now t with
    | none => (false, st)
    | some _ => (true, st)

/-- The `join` handler of `asgi.py`.  `sess = sio.get_session(sid)` is not
awaited, so `sess` is a coroutine object: it is truthy, hence
`if not sess: return` never fires, and evaluating
`f"user_{sess['user_id']}"` raises `TypeError` before `enter_room` is
reached.  The handler always aborts with that exception (logged by the
server), changing no state; its payload is never inspected. -/
def join (_sid : Nat) (_data : EventData) (st : ServerState) : ServerState :=
  st

/-- The `join_order_room` handler.  `sess = sio.get_session(sid)` is
un-awaited, so `if not sess: return` is a dead guard (a coroutine object is
truthy) and NO session is effectively required.  `order_id` is read from the
payload (`None` when the payload is not a dict, modelled by `data = none`); a
falsy `order_id` is a silent no-op; otherwise `enter_room(sid,
f'order_{order_id}')` runs and the room is entered (the handler never
subscripts `sess`, so it does not crash). -/
def join_order_room (sid : Nat) (data : Option EventData) (st : ServerState) :
    ServerState :=
  let order_id := data.bind (fun d => d.order_id)
  if pyTruthy order_id then
    match order_id with
    | some oid => { st with rooms := enter_room st.rooms sid ("order_" ++ oid) }
    | none => st
  else st

/-- The `leave_order_room` handler: NO session check in the source; a falsy
`order_id` is a silent no-op; otherwise leaves `f"order_{order_id}"`. -/
def leave_order_room (sid : Nat) (data : Option EventData) (st : ServerState) :
    ServerState :=
  let order_id := data.bind (fun d => d.order_id)
  if pyTruthy order_id then
    match order_id with
    | some oid => { st with rooms := leave_room st.rooms sid ("order_" ++ oid) }
    | none => st
  else st

/-- An exception a handler raises out of its body.  `typeError` is Python's
`TypeError: 'coroutine' object is not subscriptable`, raised where a handler
subscripts the un-awaited result of `sio.get_session`. -/
inductive PyError where
  | typeError
deriving Repr, DecidableEq

/-- The `send_message` handler.  `sess = sio.get_session(sid)` is un-awaited
(truthy coroutine, dead guard).  The payload reads and the silent-drop guard
(`if not order_id or not text: return`) run BEFORE the database is touched: a
falsy `order_id` or empty stripped text returns with nothing done and nothing
emitted.  When the guards pass, the handler opens a DB session and evaluates
`Message(user_id=sess['user_id'], ...)`, which raises `TypeError` — before
`db.add`/`db.commit`/`sio.emit` — so nothing is EVER persisted or broadcast;
the exception propagates out of the handler (the `finally` only closes the DB
session). -/
def send_message (_sid : Nat) (data : EventData) (st : ServerState) :
    Except PyError (ServerState × List Emit) :=
  let text := pyStrip (data.text.getD "")
  if pyTruthy data.order_id ∧ text ≠ "" then .error .typeError
  else .ok (st, [])

/-- The `send_user_message` handler.  Same un-awaited `get_session`: the
empty-text silent-drop guard runs first (`.ok (st, [])`, nothing emitted);
when text is non-empty the handler raises `TypeError` at
`Message(user_id=sess['user_id'], ...)` before any persist or emit. -/
def send_user_message (_sid : Nat) (data : EventData) (st : ServerState) :
    Except PyError (ServerState × List Emit) :=
  let text := pyStrip (data.text.getD "")
  if text ≠ "" then .error .typeError
  else .ok (st, [])

/-- The HTTP endpoint `POST /api/send_message_to_user` of `main.py` (staff →
user support message): persists `Message(user_id=user_id, username='admin',
direction='out', text=message, order_id=order_id)` and returns.  It emits NO
socket event — the emit list is empty because the endpoint never touches the
socket layer. -/
def send_message_to_user (now : Nat) (user_id : Nat) (message : String)
    (order_id : Option String) (st : ServerState) : ServerState × List Emit :=
  let msg : Message :=
    { id := st.nextId, user_id := user_id, username := "admin",
      direction := "out", text := message, order_id := order_id, created_at := now }
  ({ st with store := st.store ++ [msg], nextId := st.nextId + 1 }, [])

/-- The socket events delivered to connection `c` out of an emit batch `es`:
an emit to room `r` reaches exactly the members of `r` in the room index at
emit time. -/
def receivedEvents (rooms : List (String × List Nat)) (es : List Emit)
    (c : Nat) : List Emit :=
  es.filter (fun e => decide (c ∈ membersOf rooms e.room))

/-- Well-formedness of the room index: room keys are unique (the index models
a Python dict keyed by room name). -/
def RoomsWF (rooms : List (String × List Nat)) : Prop :=
  (rooms.map Prod.fst).Nodup

/-- Apply a sequence of join (`true`) / leave (`false`) operations by various
connections to the single room `r`, through the room manager. -/
def applyOps (r : String) (rooms : List (String × List Nat)) :
    List (Bool × Nat) → List (String × List Nat)
  | [] => rooms
  | (true, c) :: rest => applyOps r (enter_room rooms c r) rest
  | (false, c) :: rest => applyOps r (leave_room rooms c r) rest

/-- The same operation sequence as idempotent set union/difference. -/
def opsSet (s : Finset Nat) : List (Bool × Nat) → Finset Nat
  | [] => s
  | (true, c) :: rest => opsSet (insert c s) rest
  | (false, c) :: rest => opsSet (s.erase c) rest

/-- Claims of a demo user (id 7) used in concrete scenarios. -/
def demoPayload : TokenPayload := ⟨7, "alice", 100⟩

/-- A token correctly signed with the demo secret `"s"`. -/
def demoToken : Token := ⟨demoPayload, signToken "s" demoPayload⟩

/-- A token whose signature does not verify under the secret `"s"`. -/
def forgedToken : Token := ⟨demoPayload, "forged"⟩

/-- The initial server state: no sessions, no rooms, empty store. -/
def st0 : ServerState := ⟨[], [], [], 1⟩

/-- A state whose session registry holds an entry for sid 1 (user 7) and
whose room index is empty.  No such entry ever arises in the running program
(the un-awaited `save_session` writes nothing); the state exists as a value
of the state space, used to exercise definitions at concrete inputs. -/
def stSess : ServerState := ⟨[(1, ⟨7, "alice"⟩)], [], [], 1⟩

/-- A hypothetical state in which sid 1 (user 7) holds a session AND is a
member of its personal room `user_7` — the premise of the staff-support
scenario.  Unreachable in the running program (`join` always raises before
`enter_room`); used to show what would happen even if the premise held. -/
def stSupport : ServerState := ⟨[(1, ⟨7, "alice"⟩)], [("user_7", [1])], [], 1⟩

/-- The state after sids 1 and 2 join the order room `order_55` via
`join_order_room` (reachable: that handler really reaches `enter_room`). -/
def stOrder : ServerState :=
  join_order_room 2 (some ⟨some "55", none, none⟩)
    (join_order_room 1 (some ⟨some "55", none, none⟩) st0)

/-! ## Helper lemmas about the session registry and the room manager -/

theorem connect_snd_eq (secret : String) (now sid : Nat)
    (auth : Option (Option Token)) (st : ServerState) :
    (connect secret now sid auth st).2 = st := by
  rcases auth with _ | (_ | t)
  · rfl
  · rfl
  · cases h : jwtDecode secret now t <;> simp [connect, h]

theorem connect_admits_of_valid (secret : String) (now sid : Nat) (t : Token)
    (p : TokenPayload) (st : ServerState) (h : jwtDecode secret now t = some p) :
    connect secret now sid (some (some t)) st = (true, st) := by
  simp [connect, h]

theorem membersOf_cons_pos (r : String) (ms : List Nat)
    (tl : List (String × List Nat)) : membersOf ((r, ms) :: tl) r = ms := by
  simp [membersOf]

theorem membersOf_cons_neg (r r' : String) (ms : List Nat)
    (tl : List (String × List Nat)) (h : r' ≠ r) :
    membersOf ((r', ms) :: tl) r = membersOf tl r := by
  simp only [membersOf, if_neg h]

theorem mem_membersOf_enter_room (rooms : List (String × List Nat)) (sid : Nat)
    (r : String) (c : Nat) :
    c ∈ membersOf (enter_room rooms sid r) r ↔ c = sid ∨ c ∈ membersOf rooms r := by
  induction rooms with
  | nil => simp [enter_room, membersOf]
  | cons hd tl ih =>
    obtain ⟨r', ms⟩ := hd
    by_cases h : r' = r
    · subst h
      by_cases hm : sid ∈ ms
      · rw [enter_room, if_pos rfl, if_pos hm, membersOf_cons_pos]
        constructor
        · exact Or.inr
        · rintro (rfl | hc)
          · exact hm
          · exact hc
      · rw [enter_room, if_pos rfl, if_neg hm]
        simp only [membersOf_cons_pos]
        simp only [List.mem_append, List.mem_singleton]
        tauto
    · rw [enter_room, if_neg h]
      simp only [membersOf_cons_neg _ _ _ _ h]
      exact ih

theorem membersOf_enter_room_ne (rooms : List (String × List Nat)) (sid : Nat)
    (r r' : String) (hne : r ≠ r') :
    membersOf (enter_room rooms sid r') r = membersOf rooms r := by
  induction rooms with
  | nil =>
    rw [enter_room, membersOf_cons_neg _ _ _ _ (Ne.symm hne)]
  | cons hd tl ih =>
    obtain ⟨r'', ms⟩ := hd
    by_cases h : r'' = r'
    · subst h
      rw [enter_room, if_pos rfl]
      simp only [membersOf_cons_neg _ _ _ _ (Ne.symm hne)]
    · by_cases h2 : r'' = r
      · subst h2
        rw [enter_room, if_neg h, membersOf_cons_pos, membersOf_cons_pos]
      · rw [enter_room, if_neg h]
        simp only [membersOf_cons_neg _ _ _ _ h2]
        exact ih

theorem membersOf_leave_room_ne (rooms : List (String × List Nat)) (sid : Nat)
    (r r' : String) (hne : r ≠ r') :
    membersOf (leave_room rooms sid r') r = membersOf rooms r := by
  induction rooms with
  | nil => rw [leave_room]
  | cons hd tl ih =>
    obtain ⟨r'', ms⟩ := hd
    by_cases h : r'' = r'
    · subst h
      rw [leave_room, if_pos rfl]
      by_cases hm : sid ∈ ms
      · rw [if_pos hm]
        by_cases hf : ms.filter (fun c => c ≠ sid) = []
        · rw [if_pos hf, membersOf_cons_neg _ _ _ _ (Ne.symm hne)]
        · rw [if_neg hf]
          simp only [membersOf_cons_neg _ _ _ _ (Ne.symm hne)]
      · rw [if_neg hm]
    · by_cases h2 : r'' = r
      · subst h2
        rw [leave_room, if_neg h, membersOf_cons_pos, membersOf_cons_pos]
      · rw [leave_room, if_neg h]
        simp only [membersOf_cons_neg _ _ _ _ h2]
        exact ih

theorem enter_room_mem_noop (rooms : List (String × List Nat)) (sid : Nat)
    (r : String) (h : sid ∈ membersOf rooms r) : enter_room rooms sid r = rooms := by
  induction rooms with
  | nil => simp [membersOf] at h
  | cons hd tl ih =>
    obtain ⟨r', ms⟩ := hd
    by_cases hr : r' = r
    · subst hr
      rw [membersOf_cons_pos] at h
      rw [enter_room, if_pos rfl, if_pos h]
    · rw [membersOf_cons_neg _ _ _ _ hr] at h
      rw [enter_room, if_neg hr, ih h]

theorem leave_room_not_mem_noop (rooms : List (String × List Nat)) (sid : Nat)
    (r : String) (h : sid ∉ membersOf rooms r) : leave_room rooms sid r = rooms := by
  induction rooms with
  | nil => rw [leave_room]
  | cons hd tl ih =>
    obtain ⟨r', ms⟩ := hd
    by_cases hr : r' = r
    · subst hr
      rw [membersOf_cons_pos] at h
      rw [leave_room, if_pos rfl, if_neg h]
    · rw [membersOf_cons_neg _ _ _ _ hr] at h
      rw [leave_room, if_neg hr, ih h]

theorem membersOf_of_not_mem_keys (rooms : List (String × List Nat)) (r : String)
    (h : r ∉ rooms.map Prod.fst) : membersOf rooms r = [] := by
  induction rooms with
  | nil => rw [membersOf]
  | cons hd tl ih =>
    obtain ⟨r', ms⟩ := hd
    simp only [List.map_cons, List.mem_cons] at h
    push_neg at h
    rw [membersOf_cons_neg _ _ _ _ (Ne.symm h.1), ih h.2]

theorem mem_membersOf_leave_room (rooms : List (String × List Nat)) (sid : Nat)
    (r : String) (c : Nat) (hwf : RoomsWF rooms) :
    c ∈ membersOf (leave_room rooms sid r) r ↔ c ≠ sid ∧ c ∈ membersOf rooms r := by
  induction rooms with
  | nil => simp [leave_room, membersOf]
  | cons hd tl ih =>
    obtain ⟨r', ms⟩ := hd
    rw [RoomsWF, List.map_cons, List.nodup_cons] at hwf
    by_cases h : r' = r
    · subst h
      rw [leave_room, if_pos rfl, membersOf_cons_pos]
      by_cases hm : sid ∈ ms
      · by_cases hf : ms.filter (fun x => x ≠ sid) = []
        · rw [if_pos hm, if_pos hf, membersOf_of_not_mem_keys _ _ hwf.1]
          constructor
          · intro hc
            exact absurd hc (List.not_mem_nil c)
          · rintro ⟨hcs, hcm⟩
            have : c ∈ ms.filter (fun x => x ≠ sid) := by
              simp [List.mem_filter, hcm, hcs]
            rw [hf] at this
            exact absurd this (List.not_mem_nil c)
        · rw [if_pos hm, if_neg hf, membersOf_cons_pos]
          simp [List.mem_filter, and_comm]
      · rw [if_neg hm, membersOf_cons_pos]
        constructor
        · intro hc
          refine ⟨?_, hc⟩
          rintro rfl
          exact hm hc
        · exact And.right
    · rw [leave_room, if_neg h, membersOf_cons_neg _ _ _ _ h,
        membersOf_cons_neg _ _ _ _ h]
      exact ih hwf.2

theorem mem_keys_enter_room (rooms : List (String × List Nat)) (sid : Nat)
    (r a : String) (h : a ∈ (enter_room rooms sid r).map Prod.fst) :
    a ∈ rooms.map Prod.fst ∨ a = r := by
  induction rooms with
  | nil =>
    rw [enter_room] at h
    simp at h
    exact Or.inr h
  | cons hd tl ih =>
    obtain ⟨r', ms⟩ := hd
    by_cases hr : r' = r
    · subst hr
      rw [enter_room, if_pos rfl] at h
      simp only [List.map_cons, List.mem_cons] at h ⊢
      tauto
    · rw [enter_room, if_neg hr] at h
      simp only [List.map_cons, List.mem_cons] at h ⊢
      rcases h with h | h
      · exact Or.inl (Or.inl h)
      · rcases ih h with h2 | h2
        · exact Or.inl (Or.inr h2)
        · exact Or.inr h2

theorem mem_keys_leave_room (rooms : List (String × List Nat)) (sid : Nat)
    (r a : String) (h : a ∈ (leave_room rooms sid r).map Prod.fst) :
    a ∈ rooms.map Prod.fst := by
  induction rooms with
  | nil =>
    rw [leave_room] at h
    exact h
  | cons hd tl ih =>
    obtain ⟨r', ms⟩ := hd
    by_cases hr : r' = r
    · subst hr
      rw [leave_room, if_pos rfl] at h
      by_cases hm : sid ∈ ms
      · by_cases hf : ms.filter (fun x => x ≠ sid) = []
        · rw [if_pos hm, if_pos hf] at h
          simp only [List.map_cons, List.mem_cons]
          exact Or.inr h
        · rw [if_pos hm, if_neg hf] at h
          simpa using h
      · rw [if_neg hm] at h
        exact h
    · rw [leave_room, if_neg hr] at h
      simp only [List.map_cons, List.mem_cons] at h ⊢
      rcases h with h | h
      · exact Or.inl h
      · exact Or.inr (ih h)

theorem RoomsWF_enter_room (rooms : List (String × List Nat)) (sid : Nat)
    (r : String) (hwf : RoomsWF rooms) : RoomsWF (enter_room rooms sid r) := by
  induction rooms with
  | nil => simp [enter_room, RoomsWF]
  | cons hd tl ih =>
    obtain ⟨r', ms⟩ := hd
    rw [RoomsWF, List.map_cons, List.nodup_cons] at hwf
    by_cases hr : r' = r
    · subst hr
      rw [enter_room, if_pos rfl]
      rw [RoomsWF, List.map_cons, List.nodup_cons]
      exact hwf
    · rw [enter_room, if_neg hr]
      rw [RoomsWF, List.map_cons, List.nodup_cons]
      constructor
      · intro hmem
        rcases mem_keys_enter_room tl sid r r' hmem with h2 | h2
        · exact hwf.1 h2
        · exact hr h2
      · exact ih hwf.2

theorem RoomsWF_leave_room (rooms : List (String × List Nat)) (sid : Nat)
    (r : String) (hwf : RoomsWF rooms) : RoomsWF (leave_room rooms sid r) := by
  induction rooms with
  | nil => simpa [leave_room] using hwf
  | cons hd tl ih =>
    obtain ⟨r', ms⟩ := hd
    rw [RoomsWF, List.map_cons, List.nodup_cons] at hwf
    by_cases hr : r' = r
    · subst hr
      rw [leave_room, if_pos rfl]
      by_cases hm : sid ∈ ms
      · by_cases hf : ms.filter (fun x => x ≠ sid) = []
        · rw [if_pos hm, if_pos hf]
          exact hwf.2
        · rw [if_pos hm, if_neg hf]
          rw [RoomsWF, List.map_cons, List.nodup_cons]
          exact hwf
      · rw [if_neg hm]
        rw [RoomsWF, List.map_cons, List.nodup_cons]
        exact hwf
    · rw [leave_room, if_neg hr]
      rw [RoomsWF, List.map_cons, List.nodup_cons]
      constructor
      · intro hmem
        exact hwf.1 (mem_keys_leave_room tl sid r r' hmem)
      · exact ih hwf.2

theorem toFinset_membersOf_enter_room (rooms : List (String × List Nat))
    (sid : Nat) (r : String) :
    (membersOf (enter_room rooms sid r) r).toFinset
      = insert sid (membersOf rooms r).toFinset := by
  ext c
  simp [mem_membersOf_enter_room]

theorem toFinset_membersOf_leave_room (rooms : List (String × List Nat))
    (sid : Nat) (r : String) (hwf : RoomsWF rooms) :
    (membersOf (leave_room rooms sid r) r).toFinset
      = (membersOf rooms r).toFinset.erase sid := by
  ext c
  simp [mem_membersOf_leave_room rooms sid r c hwf, Finset.mem_erase]

theorem mem_applyOps (r : String) (ops : List (Bool × Nat)) :
    ∀ rooms : List (String × List Nat), RoomsWF rooms → ∀ c : Nat,
      (c ∈ membersOf (applyOps r rooms ops) r
        ↔ c ∈ opsSet (membersOf rooms r).toFinset ops) := by
  induction ops with
  | nil =>
    intro rooms _ c
    simp [applyOps, opsSet]
  | cons op rest ih =>
    intro rooms hwf c
    obtain ⟨b, cid⟩ := op
    cases b
    · rw [show applyOps r rooms ((false, cid) :: rest)
          = applyOps r (leave_room rooms cid r) rest from rfl,
        show opsSet (membersOf rooms r).toFinset ((false, cid) :: rest)
          = opsSet ((membersOf rooms r).toFinset.erase cid) rest from rfl,
        ih (leave_room rooms cid r) (RoomsWF_leave_room rooms cid r hwf) c,
        toFinset_membersOf_leave_room rooms cid r hwf]
    · rw [show applyOps r rooms ((true, cid) :: rest)
          = applyOps r (enter_room rooms cid r) rest from rfl,
        show opsSet (membersOf rooms r).toFinset ((true, cid) :: rest)
          = opsSet (insert cid (membersOf rooms r).toFinset) rest from rfl,
        ih (enter_room rooms cid r) (RoomsWF_enter_room rooms cid r hwf) c,
        toFinset_membersOf_enter_room rooms cid r]

theorem order_room_ne_user_room (s t : String) :
    ("order_" ++ s) ≠ ("user_" ++ t) := by
  intro h
  have h2 := congrArg String.data h
  simp [String.data_append] at h2

/-! ## Characterization lemmas for the handlers -/

theorem send_message_ok_inv (sid : Nat) (data : EventData) (st st' : ServerState)
    (es : List Emit) (h : send_message sid data st = .ok (st', es)) :
    st' = st ∧ es = [] := by
  simp only [send_message] at h
  split at h
  · exact absurd h (by simp)
  · injection h with h2
    injection h2 with ha hb
    exact ⟨ha.symm, hb.symm⟩

theorem send_user_message_ok_inv (sid : Nat) (data : EventData)
    (st st' : ServerState) (es : List Emit)
    (h : send_user_message sid data st = .ok (st', es)) :
    st' = st ∧ es = [] := by
  simp only [send_user_message] at h
  split at h
  · exact absurd h (by simp)
  · injection h with h2
    injection h2 with ha hb
    exact ⟨ha.symm, hb.symm⟩

theorem send_message_raises (sid : Nat) (data : EventData) (st : ServerState)
    (h1 : pyTruthy data.order_id = true)
    (h2 : pyStrip (data.text.getD "") ≠ "") :
    send_message sid data st = .error .typeError := by
  simp only [send_message]
  rw [if_pos (show pyTruthy data.order_id = true ∧ pyStrip (data.text.getD "") ≠ ""
    from ⟨h1, h2⟩)]

theorem send_user_message_raises (sid : Nat) (data : EventData)
    (st : ServerState) (h2 : pyStrip (data.text.getD "") ≠ "") :
    send_user_message sid data st = .error .typeError := by
  simp only [send_user_message]
  rw [if_pos h2]

theorem send_message_drop (sid : Nat) (data : EventData) (st : ServerState)
    (h : pyTruthy data.order_id = false ∨ pyStrip (data.text.getD "") = "") :
    send_message sid data st = .ok (st, []) := by
  simp only [send_message]
  rw [if_neg]
  rintro ⟨h1, h2⟩
  rcases h with h | h
  · rw [h1] at h
    exact absurd h (by simp)
  · exact h2 h

theorem send_user_message_drop (sid : Nat) (data : EventData)
    (st : ServerState) (h : pyStrip (data.text.getD "") = "") :
    send_user_message sid data st = .ok (st, []) := by
  simp only [send_user_message]
  rw [if_neg (by simpa using h)]

theorem join_order_room_drop (sid : Nat) (data : Option EventData)
    (st : ServerState) (h : pyTruthy (data.bind (fun d => d.order_id)) = false) :
    join_order_room sid data st = st := by
  simp only [join_order_room]
  rw [if_neg (by simp [h])]

theorem leave_order_room_drop (sid : Nat) (data : Option EventData)
    (st : ServerState) (h : pyTruthy (data.bind (fun d => d.order_id)) = false) :
    leave_order_room sid data st = st := by
  simp only [leave_order_room]
  rw [if_neg (by simp [h])]

theorem join_order_room_enters (sid : Nat) (d : EventData) (st : ServerState)
    (oid : String) (ho : d.order_id = some oid) (hoid : oid ≠ "") :
    join_order_room sid (some d) st
      = { st with rooms := enter_room st.rooms sid ("order_" ++ oid) } := by
  simp only [join_order_room, Option.bind, ho]
  rw [if_pos (by simp [pyTruthy, hoid])]

theorem connect_refused_of_invalid (secret : String) (now sid : Nat)
    (auth : Option (Option Token)) (st : ServerState)
    (h : ∀ t, auth = some (some t) → jwtDecode secret now t = none) :
    connect secret now sid auth st = (false, st) := by
  rcases auth with _ | (_ | t)
  · rfl
  · rfl
  · simp [connect, h t rfl]

/-! ## Claim theorems -/

/-- C2: every connection attempt whose credential token is missing (auth not
a dict, or no token key), malformed, expired, or failing signature
verification — i.e. every attempt on which `jwt.decode` does not succeed —
is refused outright at connect time: the handler returns `False` and the
server state, in particular the session registry, is completely unchanged, so
no session is ever created for it.  The `connect` handler of the source
contains no `emit` call at all (its embedded type has no emit component), so
no error message is delivered over an established channel. -/
theorem C2_unauthenticated_refused (secret : String) (now sid : Nat)
    (auth : Option (Option Token)) (st : ServerState)
    (h : ∀ t, auth = some (some t) → jwtDecode secret now t = none) :
    connect secret now sid auth st = (false, st) :=
  connect_refused_of_invalid secret now sid auth st h

/-- Witness for C2: a forged token is refused and creates no session. -/
theorem C2_witness :
    connect "s" 0 1 (some (some forgedToken)) st0 = (false, st0) :=
  C2_unauthenticated_refused "s" 0 1 (some (some forgedToken)) st0
    (by
      intro t ht
      injection ht with ht2
      injection ht2 with ht3
      rw [← ht3]
      decide)

/-- C4 counterexample: the claim says a successful `connect` creates a
Session and auto-subscribes the connection to its personal room as part of
the connect step itself.  In the code neither happens: `connect` is a sync
handler whose `sio.save_session(...)` coroutine is never awaited (so no
session is stored), and no `enter_room` is ever called from connect.
Concretely: user 7 connects with a valid token on sid 1; the connect is
admitted, yet no session exists for sid 1 and sid 1 is not a member of
`user_7` — not even after additionally issuing `join`, which raises
`TypeError` on the un-awaited `get_session` coroutine before entering any
room. -/
theorem C4_counterexample :
    (connect "s" 0 1 (some (some demoToken)) st0).1 = true ∧
    getSession (connect "s" 0 1 (some (some demoToken)) st0).2 1 = none ∧
    1 ∉ membersOf ((connect "s" 0 1 (some (some demoToken)) st0).2).rooms
        "user_7" ∧
    1 ∉ membersOf
        ((join 1 ⟨none, none, none⟩
          (connect "s" 0 1 (some (some demoToken)) st0).2).rooms) "user_7" := by
  refine ⟨by decide, by decide, by decide, by decide⟩

/-- C4 amended: a successful `connect` admits the connection but leaves the
entire server state unchanged — no session is created (the `save_session`
coroutine is never awaited) and no room is joined; and the separate `join`
event, where the personal-room subscription was intended to happen, also
changes no state (it raises `TypeError` at `sess['user_id']` before
`enter_room`), so a connection is never subscribed to its personal room. -/
theorem C4_amended_no_session_no_autojoin :
    (∀ secret now sid t p st, jwtDecode secret now t = some p →
      connect secret now sid (some (some t)) st = (true, st)) ∧
    (∀ sid d st, join sid d st = st) :=
  ⟨fun secret now sid t p st h => connect_admits_of_valid secret now sid t p st h,
   fun _ _ _ => rfl⟩

/-- Witness for C4 amended: user 7's valid connect is admitted with the
state untouched, and a subsequent `join` also changes nothing. -/
theorem C4_amended_witness :
    connect "s" 0 1 (some (some demoToken)) st0 = (true, st0) ∧
    join 1 ⟨none, none, none⟩ st0 = st0 :=
  ⟨C4_amended_no_session_no_autojoin.1 "s" 0 1 demoToken demoPayload st0
     (by decide),
   C4_amended_no_session_no_autojoin.2 1 ⟨none, none, none⟩ st0⟩

/-- C5: for every valid token (one `jwt.decode` accepts), `connect` followed
immediately by `join_order_room(O)` (with a truthy order id `O`) results in
the connection being a member of the order room `order_O` — the
`join_order_room` handler really reaches `enter_room` (its session check is a
dead guard, so nothing blocks the join); and for every invalid or expired
token, `connect` is refused and never establishes a session (the state,
including the session registry, is unchanged). -/
theorem C5_connect_then_join_order :
    (∀ secret now sid t p (d : EventData) oid st,
      jwtDecode secret now t = some p → d.order_id = some oid → oid ≠ "" →
      sid ∈ membersOf
        ((join_order_room sid (some d)
          (connect secret now sid (some (some t)) st).2).rooms)
        ("order_" ++ oid)) ∧
    (∀ secret now sid auth st,
      (∀ t, auth = some (some t) → jwtDecode secret now t = none) →
      connect secret now sid auth st = (false, st)) := by
  constructor
  · intro secret now sid t p d oid st _ ho hoid
    rw [connect_snd_eq, join_order_room_enters sid d st oid ho hoid]
    exact (mem_membersOf_enter_room _ _ _ _).mpr (Or.inl rfl)
  · exact connect_refused_of_invalid

/-- Witness for C5: user 7's valid token admits and `join_order_room 55`
makes sid 1 a member of `order_55`; the forged token is refused without a
session. -/
theorem C5_witness :
    1 ∈ membersOf
        ((join_order_room 1 (some ⟨some "55", none, none⟩)
          (connect "s" 0 1 (some (some demoToken)) st0).2).rooms)
        ("order_" ++ "55") ∧
    connect "s" 0 1 (some (some forgedToken)) st0 = (false, st0) :=
  ⟨C5_connect_then_join_order.1 "s" 0 1 demoToken demoPayload
     ⟨some "55", none, none⟩ "55" st0 (by decide) rfl (by decide),
   C5_connect_then_join_order.2 "s" 0 1 (some (some forgedToken)) st0
     (by
       intro t ht
       injection ht with ht2
       injection ht2 with ht3
       rw [← ht3]
       decide)⟩

/-- C6: a `join_order_room` / `leave_order_room` / order-scoped
`send_message` whose payload lacks a (truthy) `order_id`, and a send whose
text strips to empty, are silent no-ops: the guards run and return before the
database, the room manager or `sio.emit` is touched, so the state (store,
rooms, sessions) is returned unchanged and the emit list is empty — no event
of any kind goes back to the sender.  (`send_user_message` with empty
stripped text is included as well.) -/
theorem C6_malformed_silent_noop :
    (∀ sid data st, pyTruthy (data.bind (fun d => d.order_id)) = false →
      join_order_room sid data st = st) ∧
    (∀ sid data st, pyTruthy (data.bind (fun d => d.order_id)) = false →
      leave_order_room sid data st = st) ∧
    (∀ sid data st,
      pyTruthy data.order_id = false ∨ pyStrip (data.text.getD "") = "" →
      send_message sid data st = .ok (st, [])) ∧
    (∀ sid data st, pyStrip (data.text.getD "") = "" →
      send_user_message sid data st = .ok (st, [])) :=
  ⟨join_order_room_drop, leave_order_room_drop, send_message_drop,
   send_user_message_drop⟩

/-- Witness for C6: a join without `order_id`, a leave with `order_id = ""`,
a send without `order_id`, and a send with whitespace-only text are all
exact no-ops on a concrete state. -/
theorem C6_witness :
    join_order_room 1 (some ⟨none, some "hi", none⟩) stSess = stSess ∧
    leave_order_room 1 (some ⟨some "", none, none⟩) stSess = stSess ∧
    send_message 1 ⟨none, some "hi", none⟩ stSess = .ok (stSess, []) ∧
    send_user_message 1 ⟨some "9", some " \t ", none⟩ stSess
      = .ok (stSess, []) :=
  ⟨C6_malformed_silent_noop.1 1 (some ⟨none, some "hi", none⟩) stSess (by decide),
   C6_malformed_silent_noop.2.1 1 (some ⟨some "", none, none⟩) stSess (by decide),
   C6_malformed_silent_noop.2.2.1 1 ⟨none, some "hi", none⟩ stSess
     (Or.inl (by decide)),
   C6_malformed_silent_noop.2.2.2 1 ⟨some "9", some " \t ", none⟩ stSess
     (by decide)⟩

/-- C1 (code bug): the persist-before-broadcast contract is the evident
intent of the handler text (construct the Message, `db.add; db.commit`, then
`sio.emit`, inside try/finally with the commit failure propagating), but the
un-awaited `sio.get_session` makes the whole path dead code: every send
either silently drops (guards fail — state unchanged, nothing emitted) or
raises `TypeError` at `Message(user_id=sess['user_id'], ...)` before
`db.add`/`db.commit`/`sio.emit` run.  No send ever persists a Message or
broadcasts anything; at the concrete guarded inputs both handlers error
instead of persisting. -/
theorem C1_code_bug_no_persist_no_broadcast :
    (∀ sid data st, send_message sid data st = .ok (st, []) ∨
      send_message sid data st = .error .typeError) ∧
    (∀ sid data st, send_user_message sid data st = .ok (st, []) ∨
      send_user_message sid data st = .error .typeError) ∧
    send_message 1 ⟨some "9", some "hi", none⟩ stSess = .error .typeError ∧
    send_user_message 1 ⟨none, some "hello", none⟩ stSess
      = .error .typeError := by
  refine ⟨?_, ?_, rfl, rfl⟩
  · intro sid data st
    by_cases h : pyTruthy data.order_id = true ∧ pyStrip (data.text.getD "") ≠ ""
    · exact Or.inr (send_message_raises sid data st h.1 h.2)
    · refine Or.inl (send_message_drop sid data st ?_)
      rcases not_and_or.mp h with h1 | h2
      · exact Or.inl (by simpa using h1)
      · exact Or.inr (by simpa using h2)
  · intro sid data st
    by_cases h : pyStrip (data.text.getD "") = ""
    · exact Or.inl (send_user_message_drop sid data st h)
    · exact Or.inr (send_user_message_raises sid data st h)

/-- C3 (code bug): the membership-snapshot fan-out is the evident intent of
the emit line after the commit, but no send ever reaches it: every
successful return of a send is the silent-drop case with an empty emit list,
so no connection — member of the target room or not — is ever delivered an
event by a send.  At the concrete input, with sids 1 and 2 both members of
`order_55`, the guarded send raises `TypeError` instead of broadcasting. -/
theorem C3_code_bug_no_delivery :
    (∀ sid data st st' es c, send_message sid data st = .ok (st', es) →
      receivedEvents st.rooms es c = []) ∧
    (∀ sid data st st' es c, send_user_message sid data st = .ok (st', es) →
      receivedEvents st.rooms es c = []) ∧
    1 ∈ membersOf stOrder.rooms "order_55" ∧
    2 ∈ membersOf stOrder.rooms "order_55" ∧
    send_message 1 ⟨some "55", some "status?", some "c1"⟩ stOrder
      = .error .typeError := by
  refine ⟨?_, ?_, by decide, by decide, rfl⟩
  · intro sid data st st' es c h
    rw [(send_message_ok_inv sid data st st' es h).2]
    rfl
  · intro sid data st st' es c h
    rw [(send_user_message_ok_inv sid data st st' es h).2]
    rfl

/-- Witness for C3's theorem: the delivered-events conclusion at a concrete
silently-dropped send (its hypothesis holds by computation). -/
theorem C3_witness :
    receivedEvents stOrder.rooms [] 1 = [] :=
  C3_code_bug_no_delivery.1 1 ⟨none, none, none⟩ stOrder stOrder [] 1 rfl

/-- C7 (code bug): the correlation-id echo
(`if client_msg_id: payload['client_message_id'] = client_msg_id`) is dead
code: a send never produces any broadcast event at all — successful returns
carry an empty emit list and guarded sends raise `TypeError` before building
the payload — so no event ever echoes (or omits) a correlation id.  At the
concrete inputs, sends supplying `client_message_id = "c1"` error instead of
broadcasting. -/
theorem C7_code_bug_no_echo :
    (∀ sid data st st' es, send_message sid data st = .ok (st', es) →
      es = []) ∧
    (∀ sid data st st' es, send_user_message sid data st = .ok (st', es) →
      es = []) ∧
    send_message 1 ⟨some "9", some "hi", some "c1"⟩ stSess
      = .error .typeError ∧
    send_user_message 1 ⟨none, some "hi", some "c1"⟩ stSess
      = .error .typeError := by
  refine ⟨?_, ?_, rfl, rfl⟩
  · intro sid data st st' es h
    exact (send_message_ok_inv sid data st st' es h).2
  · intro sid data st st' es h
    exact (send_user_message_ok_inv sid data st st' es h).2

/-- Witness for C7's theorem: the empty-emit conclusion at a concrete
silently-dropped send (its hypothesis holds by computation). -/
theorem C7_witness :
    ([] : List Emit) = [] :=
  C7_code_bug_no_echo.1 1 ⟨none, none, none⟩ stSess stSess [] rfl

/-- C8: room membership is idempotent under join/leave — joining a room one
is already in leaves the whole room index unchanged, leaving a room one is
not in leaves it unchanged — and for every finite sequence of join/leave
operations on a room R (by arbitrary connections, with duplicate joins and
leaves-without-prior-join allowed), the final membership of R equals the
idempotent set union/difference (`insert`/`erase`) of the operations applied
to the initial member set. -/
theorem C8_membership_idempotent :
    (∀ rooms sid r, sid ∈ membersOf rooms r → enter_room rooms sid r = rooms) ∧
    (∀ rooms sid r, sid ∉ membersOf rooms r → leave_room rooms sid r = rooms) ∧
    (∀ rooms r (ops : List (Bool × Nat)) c, RoomsWF rooms →
      (c ∈ membersOf (applyOps r rooms ops) r ↔
        c ∈ opsSet (membersOf rooms r).toFinset ops)) :=
  ⟨enter_room_mem_noop, leave_room_not_mem_noop,
   fun rooms r ops c hwf => mem_applyOps r ops rooms hwf c⟩

/-- Witness for C8: duplicate join of member 2 and leave of non-member 3 are
no-ops, and a concrete op sequence with a duplicate join and an unmatched
leave agrees with its set semantics. -/
theorem C8_witness :
    enter_room [("order_9", [1, 2])] 2 "order_9" = [("order_9", [1, 2])] ∧
    leave_room [("order_9", [1, 2])] 3 "order_9" = [("order_9", [1, 2])] ∧
    (2 ∈ membersOf (applyOps "order_9" [("order_9", [1])]
        [(true, 2), (true, 2), (false, 1), (false, 3)]) "order_9" ↔
      2 ∈ opsSet (membersOf [("order_9", [1])] "order_9").toFinset
        [(true, 2), (true, 2), (false, 1), (false, 3)]) :=
  ⟨C8_membership_idempotent.1 [("order_9", [1, 2])] 2 "order_9" (by decide),
   C8_membership_idempotent.2.1 [("order_9", [1, 2])] 3 "order_9" (by decide),
   C8_membership_idempotent.2.2 [("order_9", [1])] "order_9"
     [(true, 2), (true, 2), (false, 1), (false, 3)] 2 (by simp [RoomsWF])⟩

/-- C9 counterexample: the claim says that when staff sends a support
message "Hello" to a user U1 who is subscribed to their personal room, U1's
connection receives a `new_support_message` with text "Hello" and direction
"out".  The staff send is the HTTP endpoint `POST /api/send_message_to_user`,
which only persists the Message and never touches the socket layer.  The
premise is granted directly as a state value (`stSupport`: sid 1 holds a
session for user 7 and is a member of `user_7` — in the running program this
premise is not even reachable, since `join` raises before `enter_room`): the
staff send persists the direction-`out` record, yet its emit list is empty
and sid 1 receives no event at all — in particular no `new_support_message`. -/
theorem C9_counterexample :
    1 ∈ membersOf stSupport.rooms "user_7" ∧
    getSession stSupport 1 = some ⟨7, "alice"⟩ ∧
    (send_message_to_user 5 7 "Hello" none stSupport).2 = [] ∧
    receivedEvents stSupport.rooms
      (send_message_to_user 5 7 "Hello" none stSupport).2 1 = [] ∧
    (send_message_to_user 5 7 "Hello" none stSupport).1.store
      = [⟨1, 7, "admin", "out", "Hello", none, 5⟩] := by
  refine ⟨by decide, by decide, rfl, rfl, by decide⟩

/-- C9 amended: staff's `send_message_to_user` durably persists a Message
for the addressed user with `username='admin'`, `direction='out'` and the
given text, but emits no socket event whatsoever, so no connection — in
particular not the addressed user's, whatever rooms it occupies — receives a
`new_support_message` from it in real time; the message is observable only
through the history query endpoints. -/
theorem C9_amended_persist_without_broadcast :
    ∀ now uid message oid st,
      (send_message_to_user now uid message oid st).1.store
        = st.store ++ [⟨st.nextId, uid, "admin", "out", message, oid, now⟩] ∧
      (send_message_to_user now uid message oid st).2 = [] ∧
      ∀ rooms c,
        receivedEvents rooms (send_message_to_user now uid message oid st).2 c
          = [] := by
  intro now uid message oid st
  exact ⟨rfl, rfl, fun rooms c => rfl⟩

/-- C10: (1) the `join` handler ignores its payload entirely; (2) any
membership `join` could add would be in the `user_<uid>` room of the
caller's OWN session (in fact it adds none — the handler aborts before
`enter_room` — so existing membership is all there is), hence no payload can
put a connection into another user's personal room; (3,4)
`join_order_room`/`leave_order_room` never change membership of any personal
room `user_*` (order rooms are prefixed `order_`, which never collides with
`user_`); (5,6) the send handlers never change room membership; (7,8) every
Message the socket send handlers persist — they persist none — has
`direction = 'in'` and takes `user_id`/`username` from the connection's own
session, never from the payload. -/
theorem C10_personal_room_isolation :
    (∀ sid d1 d2 st, join sid d1 st = join sid d2 st) ∧
    (∀ sid d st c r,
      c ∈ membersOf ((join sid d st).rooms) r →
      c ∈ membersOf st.rooms r ∨
      (c = sid ∧ ∃ sess, getSession st sid = some sess ∧
        r = "user_" ++ toString sess.user_id)) ∧
    (∀ sid d st s,
      membersOf ((join_order_room sid d st).rooms) ("user_" ++ s)
        = membersOf st.rooms ("user_" ++ s)) ∧
    (∀ sid d st s,
      membersOf ((leave_order_room sid d st).rooms) ("user_" ++ s)
        = membersOf st.rooms ("user_" ++ s)) ∧
    (∀ sid d st st' es,
      send_message sid d st = .ok (st', es) → st'.rooms = st.rooms) ∧
    (∀ sid d st st' es,
      send_user_message sid d st = .ok (st', es) → st'.rooms = st.rooms) ∧
    (∀ sid d st st' es,
      send_message sid d st = .ok (st', es) →
      st'.store = st.store ∨
      ∃ sess m, getSession st sid = some sess ∧
        st'.store = st.store ++ [m] ∧ m.direction = "in" ∧
        m.user_id = sess.user_id ∧ m.username = sess.username) ∧
    (∀ sid d st st' es,
      send_user_message sid d st = .ok (st', es) →
      st'.store = st.store ∨
      ∃ sess m, getSession st sid = some sess ∧
        st'.store = st.store ++ [m] ∧ m.direction = "in" ∧
        m.user_id = sess.user_id ∧ m.username = sess.username) := by
  refine ⟨fun sid d1 d2 st => rfl, ?_, ?_, ?_, ?_, ?_, ?_, ?_⟩
  · intro sid d st c r h
    exact Or.inl h
  · intro sid d st s
    simp only [join_order_room]
    split
    · split
      · exact membersOf_enter_room_ne _ _ _ _ ((order_room_ne_user_room _ _).symm)
      · rfl
    · rfl
  · intro sid d st s
    simp only [leave_order_room]
    split
    · split
      · exact membersOf_leave_room_ne _ _ _ _ ((order_room_ne_user_room _ _).symm)
      · rfl
    · rfl
  · intro sid d st st' es h
    rw [(send_message_ok_inv sid d st st' es h).1]
  · intro sid d st st' es h
    rw [(send_user_message_ok_inv sid d st st' es h).1]
  · intro sid d st st' es h
    exact Or.inl (by rw [(send_message_ok_inv sid d st st' es h).1])
  · intro sid d st st' es h
    exact Or.inl (by rw [(send_user_message_ok_inv sid d st st' es h).1])

/-- Witness for C10: a concrete membership fact survives `join` unchanged
(the prior-membership disjunct), and a concrete send leaves the store
untouched. -/
theorem C10_witness :
    (1 ∈ membersOf stSupport.rooms "user_7" ∨
      (1 = 1 ∧ ∃ sess, getSession stSupport 1 = some sess ∧
        "user_7" = "user_" ++ toString sess.user_id)) ∧
    (stSess.store = stSess.store ∨
      ∃ sess m, getSession stSess 1 = some sess ∧
        stSess.store = stSess.store ++ [m] ∧ m.direction = "in" ∧
        m.user_id = sess.user_id ∧ m.username = sess.username) :=
  ⟨C10_personal_room_isolation.2.1 1 ⟨none, none, none⟩ stSupport 1 "user_7"
     (by decide),
   C10_personal_room_isolation.2.2.2.2.2.2.1 1 ⟨none, none, none⟩ stSess stSess
     [] rfl⟩

end Backend
